import Mathlib

/-!
Verification of the typed raster-band wrapper (`src/src/lib.rs`,
module `typed_rasterband`) against its design specification.

The development shallowly embeds the Rust source: machine integers are
modelled as `Int` with the Rust saturating-cast semantics made explicit,
64-bit floats as an inductive carrying NaN, signed infinities, or a finite
value (finite payloads are rationals; mantissa representability is
abstracted, which no claim here depends on), and the external GDAL band
handle as a record of its observable metadata plus a row-major pixel
store whose read/write behaviour is modelled from the specification
(the gdal crate is an external collaborator, not part of this repository).
-/

namespace TypedRasterband

/-- Model of an IEEE-754 64-bit float: NaN, a signed infinity, or a finite
value. Finite payloads are rationals; which rationals are exactly
representable is abstracted away. -/
inductive F64 where
  | nan : F64
  | inf (neg : Bool) : F64
  | finite (val : ℚ) : F64
deriving DecidableEq

/-- The GDAL element-type tags used by the source (`gdal_sys::GDALDataType`),
restricted to the seven tags the wrapper supports. -/
inductive GDALDataType where
  | GDT_Byte
  | GDT_UInt16
  | GDT_Int16
  | GDT_UInt32
  | GDT_Int32
  | GDT_Float32
  | GDT_Float64
deriving DecidableEq

/-- The Lean carrier type for pixel values stored under each tag: integers
for the five integer tags, model floats for the two float tags. -/
@[reducible] def GDALDataType.carrier : GDALDataType → Type
  | .GDT_Float32 => F64
  | .GDT_Float64 => F64
  | _ => Int

instance (t : GDALDataType) : DecidableEq t.carrier :=
  match t with
  | .GDT_Byte => inferInstanceAs (DecidableEq Int)
  | .GDT_UInt16 => inferInstanceAs (DecidableEq Int)
  | .GDT_Int16 => inferInstanceAs (DecidableEq Int)
  | .GDT_UInt32 => inferInstanceAs (DecidableEq Int)
  | .GDT_Int32 => inferInstanceAs (DecidableEq Int)
  | .GDT_Float32 => inferInstanceAs (DecidableEq F64)
  | .GDT_Float64 => inferInstanceAs (DecidableEq F64)

/-- A default pixel value for each tag, used only as the `getD` fallback in
the store model (never reached on in-bounds accesses). -/
def GDALDataType.defaultPixel : (t : GDALDataType) → t.carrier
  | .GDT_Byte => (0 : Int)
  | .GDT_UInt16 => (0 : Int)
  | .GDT_Int16 => (0 : Int)
  | .GDT_UInt32 => (0 : Int)
  | .GDT_Int32 => (0 : Int)
  | .GDT_Float32 => F64.finite 0
  | .GDT_Float64 => F64.finite 0

/-- The seven supported compile-time element types of the wrapper
(the `T` of `TypedRasterBand<T>`). -/
inductive PixelType where
  | u8
  | u16
  | u32
  | i16
  | i32
  | f32
  | f64
deriving DecidableEq

/-- The intrinsic tag of each supported element type (`T::gdal_type()` from
the gdal crate's `GdalType` impls). -/
@[reducible] def PixelType.gdal_type : PixelType → GDALDataType
  | .u8 => .GDT_Byte
  | .u16 => .GDT_UInt16
  | .u32 => .GDT_UInt32
  | .i16 => .GDT_Int16
  | .i32 => .GDT_Int32
  | .f32 => .GDT_Float32
  | .f64 => .GDT_Float64

/-- The Lean carrier of a supported element type. -/
abbrev PixelType.carrier (t : PixelType) : Type := t.gdal_type.carrier

/-- Truncation of a rational toward zero, the rounding used by Rust
float-to-integer casts (`Int.tdiv` truncates toward zero and `q.den > 0`). -/
def ratTrunc (q : ℚ) : Int := q.num.tdiv (q.den : Int)

/-- Semantics of a Rust `as` cast from `f64` to an integer type with range
`[lo, hi]`: NaN maps to 0, infinities saturate to the range ends, finite
values are truncated toward zero and then saturated. -/
def rustSatCast (lo hi : Int) : F64 → Int
  | .nan => 0
  | .inf neg => if neg then lo else hi
  | .finite q => max lo (min hi (ratTrunc q))

/-- The largest finite `f32` value, as a rational. -/
def f32MaxQ : ℚ := 2 ^ 128 - 2 ^ 104

/-- Semantics of a Rust `f64 as f32` cast on the model: NaN and infinities
pass through, finite values beyond the `f32` range overflow to the same-sign
infinity, in-range finite values are kept (mantissa rounding abstracted). -/
def castF64toF32 : F64 → F64
  | .nan => .nan
  | .inf neg => .inf neg
  | .finite q =>
    if q > f32MaxQ then .inf false
    else if q < -f32MaxQ then .inf true
    else .finite q

/-- The seven `GdalFrom<f64>` impls of the source, indexed by the element
type: each impl is the Rust narrowing cast `d as T`. -/
def gdalFrom : (t : PixelType) → F64 → t.carrier
  | .u8 => rustSatCast 0 255
  | .u16 => rustSatCast 0 65535
  | .u32 => rustSatCast 0 4294967295
  | .i16 => rustSatCast (-32768) 32767
  | .i32 => rustSatCast (-2147483648) 2147483647
  | .f32 => castF64toF32
  | .f64 => fun d => d

/-- The representable integer range of each integer element type, `none` for
the float types. -/
def PixelType.intRange : PixelType → Option (Int × Int)
  | .u8 => some (0, 255)
  | .u16 => some (0, 65535)
  | .u32 => some (0, 4294967295)
  | .i16 => some (-32768, 32767)
  | .i32 => some (-2147483648, 2147483647)
  | .f32 => none
  | .f64 => none

/-- The construction-time type-mismatch error of the source (`TypeError {}`):
a payload-free struct. -/
structure TypeError

instance : DecidableEq TypeError := fun a b => isTrue (by cases a; cases b; rfl)

/-- Model of a GDAL I/O failure reported by the underlying store; its
internal detail is opaque to the wrapper. -/
inductive GdalError where
  | cplError
deriving DecidableEq

instance {ε α : Type} [DecidableEq ε] [DecidableEq α] : DecidableEq (Except ε α) := fun a b =>
  match a, b with
  | .ok x, .ok y =>
    if h : x = y then isTrue (by rw [h]) else isFalse (fun hh => h (Except.ok.inj hh))
  | .error x, .error y =>
    if h : x = y then isTrue (by rw [h]) else isFalse (fun hh => h (Except.error.inj hh))
  | .ok _, .error _ => isFalse (fun hh => Except.noConfusion hh)
  | .error _, .ok _ => isFalse (fun hh => Except.noConfusion hh)

/-- Result type of delegated store operations (`gdal::errors::Result`). -/
abbrev GdalResult (α : Type) := Except GdalError α

/-- The gdal crate's pixel buffer: a rectangular size together with the
row-major pixel data. -/
structure Buffer (α : Type) where
  size : Nat × Nat
  data : List α
deriving DecidableEq

/-- Modelled from the spec: the external Band Handle. It reports a runtime
element-type tag, the optional scalar metadata (no-data sentinel, scale,
offset, all 64-bit floats), a rectangular pixel extent, and row-major pixel
storage typed by its own tag. -/
structure RasterBand where
  band_type : GDALDataType
  no_data_value : Option F64
  scale : Option F64
  offset : Option F64
  width : Nat
  height : Nat
  data : List band_type.carrier

/-- Modelled from the spec: a window is inside the band's extent when its
origin is non-negative and origin plus size stays within width and height. -/
def RasterBand.inBounds (b : RasterBand) (window : Int × Int) (ws : Nat × Nat) : Prop :=
  0 ≤ window.1 ∧ 0 ≤ window.2 ∧
    window.1 + ws.1 ≤ b.width ∧ window.2 + ws.2 ≤ b.height

instance (b : RasterBand) (window : Int × Int) (ws : Nat × Nat) :
    Decidable (b.inBounds window ws) :=
  inferInstanceAs (Decidable (_ ∧ _ ∧ _ ∧ _))

/-- Modelled from the spec: extract the `bw × bh` window at `(x0, y0)` of a
`width`-pitched row-major store and resample it to `dw × dh`; nearest
neighbour is the concrete instance of the store-owned resampling policy
(when the two sizes agree it is plain extraction). -/
def readWindow {α : Type} (width : Nat) (dflt : α) (data : List α)
    (x0 y0 bw bh dw dh : Nat) : List α :=
  (List.range (dw * dh)).map fun i =>
    data.getD ((y0 + i / dw * bh / dh) * width + (x0 + i % dw * bw / dw)) dflt

/-- Modelled from the spec: overwrite the `bw × bh` window at `(x0, y0)` of a
`width`-pitched row-major store with the row-major contents of `buf`. -/
def spliceWindow {α : Type} (width : Nat) (dflt : α) (data : List α)
    (x0 y0 bw bh : Nat) (buf : List α) : List α :=
  (List.range data.length).map fun i =>
    let x := i % width
    let y := i / width
    if x0 ≤ x ∧ x < x0 + bw ∧ y0 ≤ y ∧ y < y0 + bh then
      buf.getD ((y - y0) * bw + (x - x0)) dflt
    else data.getD i dflt

/-- Modelled from the spec: the handle's `read_as` reads the rectangular
window, resampled to `size`, and fails with an I/O error when the window
lies outside the band's extent. -/
def RasterBand.read_as (b : RasterBand) (window : Int × Int) (window_size : Nat × Nat)
    (size : Nat × Nat) : GdalResult (Buffer b.band_type.carrier) :=
  if b.inBounds window window_size then
    .ok ⟨size, readWindow b.width b.band_type.defaultPixel b.data
      window.1.toNat window.2.toNat window_size.1 window_size.2 size.1 size.2⟩
  else .error .cplError

/-- Modelled from the spec: the handle's `read_band_as` reads the full band
extent at native resolution. -/
def RasterBand.read_band_as (b : RasterBand) : GdalResult (Buffer b.band_type.carrier) :=
  b.read_as (0, 0) (b.width, b.height) (b.width, b.height)

/-- Modelled from the spec: the handle's `write` stores the buffer into the
window; a buffer whose dimensions differ from the window size, or an
out-of-bounds window, surfaces as a store I/O error. The updated handle
state is returned explicitly. -/
def RasterBand.write (b : RasterBand) (window : Int × Int) (window_size : Nat × Nat)
    (buffer : Buffer b.band_type.carrier) : GdalResult RasterBand :=
  if b.inBounds window window_size ∧ buffer.size = window_size then
    .ok { b with
      data := spliceWindow b.width b.band_type.defaultPixel b.data
        window.1.toNat window.2.toNat window_size.1 window_size.2 buffer.data }
  else .error .cplError

/-- The typed view of the source: a borrowed band handle plus the phantom
element type; `tag_eq` records the invariant established by the validating
constructor (in Rust it is carried by the phantom type parameter). -/
structure TypedRasterBand (T : PixelType) where
  rasterband : RasterBand
  tag_eq : T.gdal_type = rasterband.band_type

/-- Transport a buffer along an equality of tags (pure type transport; the
pixel data is untouched). -/
def bufferCast {t₁ t₂ : GDALDataType} (h : t₁ = t₂) (buf : Buffer t₁.carrier) :
    Buffer t₂.carrier :=
  cast (congrArg (fun t => Buffer (GDALDataType.carrier t)) h) buf

/-- The validating constructor `TypedRasterBand::from_rasterband`: compare
`T::gdal_type()` with the handle's `band_type()`; equal tags yield the view,
unequal tags yield the payload-free `TypeError`. -/
def TypedRasterBand.from_rasterband (T : PixelType) (rasterband : RasterBand) :
    Except TypeError (TypedRasterBand T) :=
  if h : T.gdal_type = rasterband.band_type then
    .ok ⟨rasterband, h⟩
  else
    .error ⟨⟩

/-- `TypedRasterBand::read`: delegates to the handle's `read_as` with the
same arguments. -/
def TypedRasterBand.read {T : PixelType} (v : TypedRasterBand T) (window : Int × Int)
    (window_size : Nat × Nat) (size : Nat × Nat) : GdalResult (Buffer T.carrier) :=
  (v.rasterband.read_as window window_size size).map (bufferCast v.tag_eq.symm)

/-- `TypedRasterBand::read_band`: delegates to the handle's `read_band_as`. -/
def TypedRasterBand.read_band {T : PixelType} (v : TypedRasterBand T) :
    GdalResult (Buffer T.carrier) :=
  v.rasterband.read_band_as.map (bufferCast v.tag_eq.symm)

/-- `TypedRasterBand::write`: delegates to the handle's `write` with the same
arguments. -/
def TypedRasterBand.write {T : PixelType} (v : TypedRasterBand T) (window : Int × Int)
    (window_size : Nat × Nat) (buffer : Buffer T.carrier) : GdalResult RasterBand :=
  v.rasterband.write window window_size (bufferCast v.tag_eq buffer)

/-- `TypedRasterBand::band_type`: delegates to the handle's `band_type`. -/
def TypedRasterBand.band_type {T : PixelType} (v : TypedRasterBand T) : GDALDataType :=
  v.rasterband.band_type

/-- `TypedRasterBand::no_data_value`: queries the handle's `f64` sentinel and
maps the `GdalFrom` conversion over it. -/
def TypedRasterBand.no_data_value {T : PixelType} (v : TypedRasterBand T) :
    Option T.carrier :=
  v.rasterband.no_data_value.map (gdalFrom T)

/-- `TypedRasterBand::scale`: delegates to the handle's `scale`. -/
def TypedRasterBand.scale {T : PixelType} (v : TypedRasterBand T) : Option F64 :=
  v.rasterband.scale

/-- `TypedRasterBand::offset`: delegates to the handle's `offset`. -/
def TypedRasterBand.offset {T : PixelType} (v : TypedRasterBand T) : Option F64 :=
  v.rasterband.offset

/-- A concrete 2 by 2 byte band with no-data sentinel 42, mirroring the test
fixtures of the repository; used to instantiate witnesses. -/
def sampleByteBand : RasterBand :=
  { band_type := .GDT_Byte, no_data_value := some (.finite ((42 : Int) : ℚ)),
    scale := none, offset := none, width := 2, height := 2,
    data := ([10, 11, 12, 13] : List Int) }

/-- A concrete 2 by 2 unsigned 16-bit band with no-data sentinel 42. -/
def sampleU16Band : RasterBand :=
  { band_type := .GDT_UInt16, no_data_value := some (.finite ((42 : Int) : ℚ)),
    scale := some (.finite ((2 : Int) : ℚ)), offset := some (.finite ((5 : Int) : ℚ)),
    width := 2, height := 2, data := ([100, 200, 300, 400] : List Int) }

/-- A concrete signed 32-bit band whose no-data sentinel is NaN. -/
def sampleNanBand : RasterBand :=
  { band_type := .GDT_Int32, no_data_value := some .nan,
    scale := none, offset := none, width := 0, height := 0,
    data := ([] : List Int) }

/-- The rational seven halves (3.5), built without normalisation so that the
kernel can evaluate with it. -/
def sevenHalves : ℚ := ⟨7, 2, by decide, by decide⟩

theorem ratTrunc_nonneg (q : ℚ) (h : 0 ≤ q) : ratTrunc q = ⌊q⌋ := by
  rw [ratTrunc, Int.tdiv_eq_ediv (Rat.num_nonneg.mpr h) (by positivity), Rat.floor_def]

theorem ratTrunc_nonpos (q : ℚ) (h : q ≤ 0) : ratTrunc q = ⌈q⌉ := by
  have h2 : ratTrunc (-q) = ⌊-q⌋ := ratTrunc_nonneg (-q) (by linarith)
  rw [Int.floor_neg] at h2
  rw [ratTrunc, Rat.neg_num, show (-q).den = q.den from rfl, Int.neg_tdiv] at h2
  rw [ratTrunc]
  omega

theorem ratTrunc_intCast (n : Int) : ratTrunc (n : ℚ) = n := by
  simp [ratTrunc, Rat.num_intCast, Rat.den_intCast, Int.tdiv_one]

theorem range_map_getD {α : Type} (l : List α) (d : α) (n : Nat) (hn : l.length = n) :
    (List.range n).map (fun i => l.getD i d) = l := by
  subst hn
  apply List.ext_getElem
  · simp
  · intro i h1 h2
    simp only [List.getElem_map, List.getElem_range]
    exact List.getD_eq_getElem l d h2

theorem readWindow_full {α : Type} (w h : Nat) (d : α) (data : List α)
    (hlen : data.length = w * h) :
    readWindow w d data 0 0 w h w h = data := by
  rw [readWindow]
  have hcongr : ∀ i ∈ List.range (w * h),
      data.getD ((0 + i / w * h / h) * w + (0 + i % w * w / w)) d = data.getD i d := by
    intro i hi
    rw [List.mem_range] at hi
    have hw : 0 < w := by
      rcases Nat.eq_zero_or_pos w with h0 | h0
      · subst h0; simp at hi
      · exact h0
    have hh : 0 < h := by
      rcases Nat.eq_zero_or_pos h with h0 | h0
      · subst h0; simp at hi
      · exact h0
    have e1 : i / w * h / h = i / w := Nat.mul_div_left (i / w) hh
    have e2 : i % w * w / w = i % w := Nat.mul_div_left (i % w) hw
    rw [Nat.zero_add, Nat.zero_add, e1, e2, Nat.mul_comm, Nat.div_add_mod]
  rw [List.map_congr_left hcongr, range_map_getD data d (w * h) hlen]

theorem spliceWindow_full {α : Type} (w h : Nat) (d : α) (data buf : List α)
    (hlen : data.length = w * h) (hbuf : buf.length = w * h) :
    spliceWindow w d data 0 0 w h buf = buf := by
  rw [spliceWindow]
  have hcongr : ∀ i ∈ List.range data.length,
      (let x := i % w
       let y := i / w
       if 0 ≤ x ∧ x < 0 + w ∧ 0 ≤ y ∧ y < 0 + h then
         buf.getD ((y - 0) * w + (x - 0)) d
       else data.getD i d) = buf.getD i d := by
    intro i hi
    rw [List.mem_range, hlen] at hi
    have hw : 0 < w := by
      rcases Nat.eq_zero_or_pos w with h0 | h0
      · subst h0; simp at hi
      · exact h0
    have hx : i % w < 0 + w := by
      rw [Nat.zero_add]; exact Nat.mod_lt i hw
    have hy : i / w < 0 + h := by
      rw [Nat.zero_add]; exact Nat.div_lt_of_lt_mul (by omega)
    simp only [Nat.zero_le, Nat.sub_zero, hx, hy, and_true, true_and, if_true]
    rw [Nat.mul_comm, Nat.div_add_mod]
  rw [List.map_congr_left hcongr, range_map_getD buf d data.length (by omega)]

theorem bufferCast_rfl {t : GDALDataType} (buf : Buffer t.carrier) :
    bufferCast rfl buf = buf := rfl

theorem bufferCast_bufferCast {t₁ t₂ : GDALDataType} (h : t₁ = t₂)
    (buf : Buffer t₂.carrier) : bufferCast h (bufferCast h.symm buf) = buf := by
  subst h
  rfl

theorem bufferCast_size {t₁ t₂ : GDALDataType} (h : t₁ = t₂) (buf : Buffer t₁.carrier) :
    (bufferCast h buf).size = buf.size := by
  subst h
  rfl

theorem bufferCast_heq {t₁ t₂ : GDALDataType} (h : t₁ = t₂) (buf : Buffer t₁.carrier) :
    HEq (bufferCast h buf) buf := by
  subst h
  rfl

theorem except_map_bufferCast_heq {t₁ t₂ : GDALDataType} (h : t₁ = t₂)
    (e : GdalResult (Buffer t₁.carrier)) : HEq (e.map (bufferCast h)) e := by
  subst h
  apply heq_of_eq
  cases e <;> rfl

theorem band_inBounds_full (b : RasterBand) :
    b.inBounds (0, 0) (b.width, b.height) := by
  refine ⟨le_refl 0, le_refl 0, ?_, ?_⟩ <;> simp

theorem read_band_as_full (b : RasterBand)
    (hlen : b.data.length = b.width * b.height) :
    b.read_band_as = .ok ⟨(b.width, b.height), b.data⟩ := by
  have h1 : b.read_band_as = .ok ⟨(b.width, b.height),
      readWindow b.width b.band_type.defaultPixel b.data 0 0
        b.width b.height b.width b.height⟩ := by
    unfold RasterBand.read_band_as RasterBand.read_as
    rw [if_pos (band_inBounds_full b)]
    rfl
  rw [h1, readWindow_full b.width b.height _ b.data hlen]

theorem write_full (b : RasterBand) (buf : Buffer b.band_type.carrier)
    (hsize : buf.size = (b.width, b.height)) :
    b.write (0, 0) (b.width, b.height) buf =
      .ok { b with data := (spliceWindow b.width b.band_type.defaultPixel b.data
        0 0 b.width b.height buf.data) } := by
  unfold RasterBand.write
  rw [if_pos ⟨band_inBounds_full b, hsize⟩]
  rfl

/-- C1: `from_rasterband` returns a typed view over the given handle exactly
when the handle's runtime element-type tag equals `T`'s intrinsic tag, and
otherwise fails with the `TypeError` mismatch error, a type that carries no
payload (any two of its values are equal). -/
theorem from_rasterband_validates (T : PixelType) (b : RasterBand) :
    ((∃ v : TypedRasterBand T,
        TypedRasterBand.from_rasterband T b = .ok v ∧ v.rasterband = b) ↔
      T.gdal_type = b.band_type) ∧
    (T.gdal_type ≠ b.band_type →
      TypedRasterBand.from_rasterband T b = .error ⟨⟩) ∧
    (∀ e1 e2 : TypeError, e1 = e2) := by
  refine ⟨⟨?_, ?_⟩, ?_, ?_⟩
  · rintro ⟨v, hok, -⟩
    by_cases h : T.gdal_type = b.band_type
    · exact h
    · simp only [TypedRasterBand.from_rasterband, dif_neg h] at hok
      exact (Except.noConfusion hok)
  · intro h
    exact ⟨⟨b, h⟩, by simp only [TypedRasterBand.from_rasterband, dif_pos h], rfl⟩
  · intro h
    simp only [TypedRasterBand.from_rasterband, dif_neg h]
  · intro e1 e2
    cases e1
    cases e2
    rfl

theorem from_rasterband_validates_witness :
    TypedRasterBand.from_rasterband .u16 sampleByteBand = .error ⟨⟩ :=
  (from_rasterband_validates .u16 sampleByteBand).2.1 (by decide)

/-- C2: every view successfully constructed by `from_rasterband` satisfies
`band_type() = T.gdal_type`, it wraps exactly the validated handle, and a
successful `write` through the view leaves the handle's element-type tag
unchanged (no operation of the view can change it: all the others do not
touch the handle's state at all). -/
theorem view_band_type_invariant (T : PixelType) (b : RasterBand)
    (v : TypedRasterBand T)
    (hok : TypedRasterBand.from_rasterband T b = .ok v) :
    v.band_type = T.gdal_type ∧ v.rasterband = b ∧
    ∀ (window : Int × Int) (window_size : Nat × Nat) (buffer : Buffer T.carrier)
      (b2 : RasterBand), v.write window window_size buffer = .ok b2 →
        b2.band_type = T.gdal_type := by
  refine ⟨v.tag_eq.symm, ?_, ?_⟩
  · simp only [TypedRasterBand.from_rasterband] at hok
    split at hok
    · cases hok
      rfl
    · cases hok
  · intro window window_size buffer b2 hw
    simp only [TypedRasterBand.write, RasterBand.write] at hw
    split at hw
    · cases hw
      exact v.tag_eq.symm
    · cases hw

theorem view_band_type_invariant_witness :
    (⟨sampleByteBand, rfl⟩ : TypedRasterBand .u8).band_type =
      PixelType.u8.gdal_type :=
  (view_band_type_invariant .u8 sampleByteBand ⟨sampleByteBand, rfl⟩ rfl).1

/-- C3: `no_data_value()` is the handle's optional 64-bit-float sentinel with
the `GdalFrom` conversion mapped over it: a present sentinel `s` yields
`some (gdalFrom T s)` and an absent sentinel yields `none`, never a default
value. -/
theorem no_data_value_conversion (T : PixelType) (v : TypedRasterBand T) :
    v.no_data_value = v.rasterband.no_data_value.map (gdalFrom T) ∧
    (v.rasterband.no_data_value = none → v.no_data_value = none) ∧
    ∀ s : F64, v.rasterband.no_data_value = some s →
      v.no_data_value = some (gdalFrom T s) := by
  refine ⟨rfl, ?_, ?_⟩
  · intro h
    simp [TypedRasterBand.no_data_value, h]
  · intro s h
    simp [TypedRasterBand.no_data_value, h]

theorem no_data_value_conversion_witness :
    (⟨sampleByteBand, rfl⟩ : TypedRasterBand .u8).no_data_value = some 42 :=
  ((no_data_value_conversion .u8 ⟨sampleByteBand, rfl⟩).2.2
    (.finite ((42 : Int) : ℚ)) rfl).trans (by decide)

/-- C4: `read`, `read_band` and `write` are pure delegations to the handle's
`read_as`, `read_band_as` and `write` with the same arguments: the results
are literally the handle's results (stated with `HEq` across the tag-equal
buffer types), and the buffer passed to `write` is forwarded untransformed. -/
theorem read_write_pure_delegation (T : PixelType) (v : TypedRasterBand T)
    (window : Int × Int) (window_size size : Nat × Nat) :
    HEq (v.read window window_size size)
      (v.rasterband.read_as window window_size size) ∧
    HEq v.read_band v.rasterband.read_band_as ∧
    ∀ buffer : Buffer T.carrier,
      v.write window window_size buffer =
        v.rasterband.write window window_size (bufferCast v.tag_eq buffer) ∧
      HEq (bufferCast v.tag_eq buffer) buffer :=
  ⟨except_map_bufferCast_heq v.tag_eq.symm _,
   except_map_bufferCast_heq v.tag_eq.symm _,
   fun buffer => ⟨rfl, bufferCast_heq v.tag_eq buffer⟩⟩

/-- C5: the `GdalFrom` conversion is total on the `f64` model (every input,
NaN and infinities included, has a value), `ratTrunc` truncates toward zero
(it is the floor of non-negatives and the ceiling of non-positives), and for
each of the five integer target types an input whose truncation lies in the
representable range converts to exactly that truncation. -/
theorem gdalFrom_total_truncating :
    (∀ (t : PixelType) (d : F64), ∃ r : t.carrier, gdalFrom t d = r) ∧
    (∀ q : ℚ, 0 ≤ q → ratTrunc q = ⌊q⌋) ∧
    (∀ q : ℚ, q ≤ 0 → ratTrunc q = ⌈q⌉) ∧
    (∀ q : ℚ, 0 ≤ ratTrunc q → ratTrunc q ≤ 255 →
      gdalFrom .u8 (.finite q) = ratTrunc q) ∧
    (∀ q : ℚ, 0 ≤ ratTrunc q → ratTrunc q ≤ 65535 →
      gdalFrom .u16 (.finite q) = ratTrunc q) ∧
    (∀ q : ℚ, 0 ≤ ratTrunc q → ratTrunc q ≤ 4294967295 →
      gdalFrom .u32 (.finite q) = ratTrunc q) ∧
    (∀ q : ℚ, -32768 ≤ ratTrunc q → ratTrunc q ≤ 32767 →
      gdalFrom .i16 (.finite q) = ratTrunc q) ∧
    (∀ q : ℚ, -2147483648 ≤ ratTrunc q → ratTrunc q ≤ 2147483647 →
      gdalFrom .i32 (.finite q) = ratTrunc q) := by
  refine ⟨fun t d => ⟨gdalFrom t d, rfl⟩, ratTrunc_nonneg, ratTrunc_nonpos,
    ?_, ?_, ?_, ?_, ?_⟩ <;>
    (intro q h1 h2
     simp only [gdalFrom, rustSatCast]
     rw [min_eq_right h2, max_eq_right h1])

theorem gdalFrom_total_truncating_witness :
    0 ≤ ratTrunc sevenHalves ∧ ratTrunc sevenHalves ≤ 255 ∧
    gdalFrom .u8 (.finite sevenHalves) = ratTrunc sevenHalves :=
  ⟨by decide, by decide,
   gdalFrom_total_truncating.2.2.2.1 sevenHalves (by decide) (by decide)⟩

/-- C6: for each integer element type, a no-data sentinel that is exactly an
in-range integer `n` round-trips with no loss: `no_data_value()` on a view of
that type yields `some n`. -/
theorem no_data_value_exact_roundtrip (n : Int) (b : RasterBand)
    (hsent : b.no_data_value = some (.finite (n : ℚ))) :
    (∀ v : TypedRasterBand .u8, v.rasterband = b → 0 ≤ n → n ≤ 255 →
      v.no_data_value = some n) ∧
    (∀ v : TypedRasterBand .u16, v.rasterband = b → 0 ≤ n → n ≤ 65535 →
      v.no_data_value = some n) ∧
    (∀ v : TypedRasterBand .u32, v.rasterband = b → 0 ≤ n → n ≤ 4294967295 →
      v.no_data_value = some n) ∧
    (∀ v : TypedRasterBand .i16, v.rasterband = b → -32768 ≤ n → n ≤ 32767 →
      v.no_data_value = some n) ∧
    (∀ v : TypedRasterBand .i32, v.rasterband = b →
      -2147483648 ≤ n → n ≤ 2147483647 → v.no_data_value = some n) := by
  refine ⟨?_, ?_, ?_, ?_, ?_⟩ <;>
    (intro v hv h1 h2
     simp only [TypedRasterBand.no_data_value, hv, hsent, Option.map_some',
       gdalFrom, rustSatCast, ratTrunc_intCast, Option.some.injEq]
     rw [min_eq_right h2, max_eq_right h1])

theorem no_data_value_exact_roundtrip_witness :
    (⟨sampleU16Band, rfl⟩ : TypedRasterBand .u16).no_data_value = some 42 :=
  (no_data_value_exact_roundtrip 42 sampleU16Band rfl).2.1
    ⟨sampleU16Band, rfl⟩ rfl (by decide) (by decide)

/-- C7: `scale()` and `offset()` pass the handle's raw optional 64-bit-float
metadata through with no conversion, and two views over the same handle agree
on them regardless of their element types. -/
theorem scale_offset_passthrough (T₁ T₂ : PixelType) (v₁ : TypedRasterBand T₁)
    (v₂ : TypedRasterBand T₂) (h : v₁.rasterband = v₂.rasterband) :
    v₁.scale = v₁.rasterband.scale ∧ v₁.offset = v₁.rasterband.offset ∧
    v₁.scale = v₂.scale ∧ v₁.offset = v₂.offset := by
  refine ⟨rfl, rfl, ?_, ?_⟩ <;>
    simp only [TypedRasterBand.scale, TypedRasterBand.offset, h]

theorem scale_offset_passthrough_witness :
    (⟨sampleU16Band, rfl⟩ : TypedRasterBand .u16).scale = sampleU16Band.scale ∧
    (⟨sampleU16Band, rfl⟩ : TypedRasterBand .u16).offset = sampleU16Band.offset :=
  ⟨(scale_offset_passthrough .u16 .u16 ⟨sampleU16Band, rfl⟩ ⟨sampleU16Band, rfl⟩ rfl).1,
   (scale_offset_passthrough .u16 .u16 ⟨sampleU16Band, rfl⟩ ⟨sampleU16Band, rfl⟩ rfl).2.1⟩

/-- C8: reading the full band, writing the buffer back unchanged to the same
window, and re-reading yields a buffer identical to the original. -/
theorem read_write_read_roundtrip (T : PixelType) (b : RasterBand)
    (htag : T.gdal_type = b.band_type)
    (hlen : b.data.length = b.width * b.height) :
    ∃ (buf : Buffer T.carrier) (b2 : RasterBand) (v2 : TypedRasterBand T),
      (TypedRasterBand.mk b htag).read_band = .ok buf ∧
      (TypedRasterBand.mk b htag).write (0, 0) (b.width, b.height) buf = .ok b2 ∧
      TypedRasterBand.from_rasterband T b2 = .ok v2 ∧
      v2.read_band = .ok buf := by
  have hband : (TypedRasterBand.mk b htag).read_band =
      .ok (bufferCast htag.symm ⟨(b.width, b.height), b.data⟩) := by
    unfold TypedRasterBand.read_band
    rw [read_band_as_full b hlen]
    rfl
  refine ⟨bufferCast htag.symm ⟨(b.width, b.height), b.data⟩, b, ⟨b, htag⟩,
    hband, ?_, ?_, hband⟩
  · show b.write (0, 0) (b.width, b.height)
      (bufferCast htag (bufferCast htag.symm ⟨(b.width, b.height), b.data⟩)) = .ok b
    rw [bufferCast_bufferCast, write_full b ⟨(b.width, b.height), b.data⟩ rfl]
    rw [show (Buffer.mk (b.width, b.height) b.data).data = b.data from rfl]
    rw [spliceWindow_full b.width b.height _ b.data b.data hlen hlen]
  · exact dif_pos htag

theorem read_write_read_roundtrip_witness :
    ∃ (buf : Buffer PixelType.u8.carrier) (b2 : RasterBand)
      (v2 : TypedRasterBand .u8),
      (TypedRasterBand.mk sampleByteBand rfl).read_band = .ok buf ∧
      (TypedRasterBand.mk sampleByteBand rfl).write (0, 0)
        (sampleByteBand.width, sampleByteBand.height) buf = .ok b2 ∧
      TypedRasterBand.from_rasterband .u8 b2 = .ok v2 ∧
      v2.read_band = .ok buf :=
  read_write_read_roundtrip .u8 sampleByteBand rfl (by decide)

/-- C9: the `GdalFrom<f64>` impl for `f64` (the source's `d as f64`) is the
identity function. -/
theorem gdalFrom_f64_id : ∀ d : F64, gdalFrom .f64 d = d := fun _ => rfl

/-- C10: `no_data_value()` returns `none` exactly when the handle reports no
sentinel; whenever a sentinel is present — NaN, infinite, out-of-range or
non-integral included — the result is `some` of the converted value, never
`none`. -/
theorem no_data_value_none_iff (T : PixelType) (v : TypedRasterBand T) :
    (v.no_data_value = none ↔ v.rasterband.no_data_value = none) ∧
    ∀ s : F64, v.rasterband.no_data_value = some s →
      ∃ r : T.carrier, v.no_data_value = some r := by
  constructor
  · simp [TypedRasterBand.no_data_value]
  · intro s h
    exact ⟨gdalFrom T s, by simp [TypedRasterBand.no_data_value, h]⟩

theorem no_data_value_none_iff_witness :
    ∃ r : PixelType.i32.carrier,
      (⟨sampleNanBand, rfl⟩ : TypedRasterBand .i32).no_data_value = some r :=
  (no_data_value_none_iff .i32 ⟨sampleNanBand, rfl⟩).2 .nan rfl

end TypedRasterband
